import Mathlib

/-!
Shallow embedding of `src/server.py` (the Vapi MCP server), centred on the
call-initiation tool `make_vapi_call` (lines 60-278 of the source).

Python dictionaries returned by the tool are modelled as `Json.obj` values
(association lists preserving insertion order).  Environment variables are an
explicit `Env` record of `Option String` (a variable can be unset, or set to
the empty string, both falsy in Python).  The remote Vapi API is an explicit
oracle: one `HttpResult` for the initiation POST and one for the follow-up
detail GET.  Besides the result dictionary, the embedding returns the list of
HTTP requests the code attempts, so that claims about network activity are
statable.
-/

/-- JSON values, as produced by `response.json()` and built by the tool. -/
inductive Json where
  | null : Json
  | bool : Bool → Json
  | num : Int → Json
  | str : String → Json
  | arr : List Json → Json
  | obj : List (String × Json) → Json

/-- First binding of a key in an association list (Python dict lookup). -/
def getField : List (String × Json) → String → Option Json
  | [], _ => none
  | (k, v) :: rest, key => if k = key then some v else getField rest key

/-- Lookup of a key in a `Json.obj`; `none` on non-objects or absent keys. -/
def Json.lookup : Json → String → Option Json
  | .obj fields, key => getField fields key
  | _, _ => none

/-- Keys of a `Json.obj`, in insertion order. -/
def Json.keys : Json → List String
  | .obj fields => fields.map Prod.fst
  | _ => []

/-- Python `dict.get(k)`: the stored value when the key is present (even when
that value is `None`), and `None` when absent. -/
def pyDictGet (fields : List (String × Json)) (key : String) : Json :=
  (getField fields key).getD .null

/-- Python `dict.get(k, default)`: the stored value when the key is present,
the default only when the key is absent. -/
def pyDictGetD (fields : List (String × Json)) (key : String) (dflt : Json) : Json :=
  (getField fields key).getD dflt

/-- Python truthiness of a JSON value (`None`, `False`, `0`, `""`, `[]` and
`{}` are falsy). -/
def jsonTruthy : Json → Bool
  | .null => false
  | .bool b => b
  | .num n => n ≠ 0
  | .str s => ¬s.isEmpty
  | .arr xs => ¬xs.isEmpty
  | .obj fields => ¬fields.isEmpty

/-- Python truthiness of `call_data.get(k)` (`None` when the key is absent). -/
def optTruthy : Option Json → Bool
  | none => false
  | some j => jsonTruthy j

/-- Python truthiness of an optional string (`None` and `""` are falsy); used
for environment variables and the optional `customer_name` argument. -/
def pyFalsy : Option String → Bool
  | none => true
  | some s => s.isEmpty

mutual

/-- Python `repr` of a JSON value, used when a non-string value is
interpolated into an f-string. -/
def pyReprJson : Json → String
  | .null => "None"
  | .bool b => if b then "True" else "False"
  | .num n => toString n
  | .str s => "\x27" ++ s ++ "\x27"
  | .arr xs => "[" ++ pyReprList xs ++ "]"
  | .obj fields => "\x7b" ++ pyReprFields fields ++ "\x7d"

/-- Comma-separated `repr` of list elements. -/
def pyReprList : List Json → String
  | [] => ""
  | [x] => pyReprJson x
  | x :: xs => pyReprJson x ++ ", " ++ pyReprList xs

/-- Comma-separated `repr` of dict entries. -/
def pyReprFields : List (String × Json) → String
  | [] => ""
  | [(k, v)] => "\x27" ++ k ++ "\x27: " ++ pyReprJson v
  | (k, v) :: xs => "\x27" ++ k ++ "\x27: " ++ pyReprJson v ++ ", " ++ pyReprFields xs

end

/-- Python f-string interpolation of a JSON value: strings appear without
quotes, every other value by its `repr`. -/
def pyFStr : Json → String
  | .str s => s
  | j => pyReprJson j

/-- Name of the Python type a JSON value parses to (for exception texts). -/
def pyTypeName : Json → String
  | .null => "NoneType"
  | .bool _ => "bool"
  | .num _ => "int"
  | .str _ => "str"
  | .arr _ => "list"
  | .obj _ => "dict"

/-- Python `str.lower()` (the personas are ASCII, where `Char.toLower`
agrees with Python). -/
def pyLower (s : String) : String :=
  ⟨s.data.map Char.toLower⟩

/-- Python `str.upper()`. -/
def pyUpper (s : String) : String :=
  ⟨s.data.map Char.toUpper⟩

/-- Python `str.title()`: the first letter of each alphabetic run is
uppercased, the rest lowercased. -/
def pyTitleAux : Bool → List Char → List Char
  | _, [] => []
  | prevAlpha, c :: cs =>
    (if c.isAlpha then (if prevAlpha then c.toLower else c.toUpper) else c)
      :: pyTitleAux c.isAlpha cs

/-- Python `str.title()` on a string. -/
def pyTitle (s : String) : String :=
  ⟨pyTitleAux false s.data⟩

/-- Arguments of the `make_vapi_call` tool (server.py line 60). -/
structure CallInput where
  destination_phone_number : String
  customer_name : Option String
  assistant : String

/-- The environment variables the tool reads (server.py lines 84-87).  Each is
`none` when unset; an empty string is treated as missing by the code's
truthiness checks. -/
structure Env where
  vapi_api_key : Option String
  andy : Option String
  mam : Option String
  phone : Option String

/-- Outcome of one HTTP request attempt, as observed by the Python code:
a response (with status, raw text, and the parse of the body — `none` when
`response.json()` would raise), or one of the exception classes the code
handles.  `httpStatusError` models the `httpx.HTTPStatusError` handler
(lines 255-266); `otherError` is any other exception, with the Python class
name and message. -/
inductive HttpResult where
  | response : Nat → String → Option Json → HttpResult
  | timeout : String → HttpResult
  | requestError : String → HttpResult
  | httpStatusError : Nat → String → HttpResult
  | otherError : String → String → HttpResult

/-- Behaviour of the remote API for one invocation: the result of the
initiation POST and, when it is attempted, of the follow-up detail GET. -/
structure Oracle where
  post : HttpResult
  detail : HttpResult

/-- An HTTP request attempted by the tool: the POST to the call-initiation
endpoint (url, bearer token, JSON payload, timeout in seconds) or the
follow-up GET (url, bearer token, timeout in seconds). -/
inductive Request where
  | post : String → String → Json → Nat → Request
  | get : String → String → Nat → Request

/-- The persona-specific assistant id (server.py line 90): `ANDY` when the
lowercased persona is `andy`, else `MAM`. -/
def assistantIdOpt (inp : CallInput) (env : Env) : Option String :=
  if pyLower inp.assistant = "andy" then env.andy else env.mam

/-- Names of the missing required environment variables, in the order the code
collects them (server.py lines 93-96). -/
def missingVars (inp : CallInput) (env : Env) : List String :=
  (if pyFalsy env.vapi_api_key then ["VAPI_API_KEY"] else [])
    ++ (if pyFalsy (assistantIdOpt inp env) then [pyUpper inp.assistant] else [])
    ++ (if pyFalsy env.phone then ["PHONE"] else [])

/-- The validation-error dictionary (server.py lines 75-81). -/
def validationResult (inp : CallInput) : Json :=
  .obj [("success", .bool false),
        ("error", .str ("Invalid assistant \x27" ++ inp.assistant
          ++ "\x27. Must be \x27andy\x27 or \x27mam\x27")),
        ("error_type", .str "validation_error"),
        ("message", .str "Assistant parameter must be either \x27andy\x27 or \x27mam\x27"),
        ("valid_options", .arr [.str "andy", .str "mam"])]

/-- The configuration-error dictionary (server.py lines 99-106). -/
def configResult (inp : CallInput) (env : Env) : Json :=
  .obj [("success", .bool false),
        ("error", .str ("Missing required environment variables: "
          ++ String.intercalate ", " (missingVars inp env))),
        ("error_type", .str "configuration_error"),
        ("message", .str "Please configure all required environment variables"),
        ("missing_variables", .arr ((missingVars inp env).map .str)),
        ("assistant_requested", .str inp.assistant)]

/-- The call-initiation endpoint (server.py line 109). -/
def vapiCallUrl : String := "https://api.vapi.ai/call/phone"

/-- The per-call detail endpoint (server.py line 147), with the call id
interpolated as Python would. -/
def detailUrl (callId : Json) : String :=
  "https://api.vapi.ai/call/" ++ pyFStr callId

/-- The customer object of the wire payload (server.py lines 118-125): the
destination number, plus the name only when `customer_name` is truthy. -/
def customerFields (inp : CallInput) : List (String × Json) :=
  ("number", Json.str inp.destination_phone_number)
    :: (match inp.customer_name with
        | some n => if n.isEmpty then [] else [("name", Json.str n)]
        | none => [])

/-- The wire payload of the initiation POST (server.py lines 115-125). -/
def buildPayload (inp : CallInput) (assistant_id phone_id : String) : Json :=
  .obj [("assistantId", .str assistant_id),
        ("phoneNumberId", .str phone_id),
        ("customer", .obj (customerFields inp))]

/-- The success dictionary (server.py lines 160-176), built from the initial
call id and the fields of whichever record `final_data` ended up being. -/
def successResult (inp : CallInput) (assistant_id phone_id : String)
    (callId : Json) (ffields : List (String × Json)) : Json :=
  .obj [("success", .bool true),
        ("call_id", callId),
        ("status", pyDictGetD ffields "status" (.str "unknown")),
        ("message", .str ("Call successfully initiated to "
          ++ inp.destination_phone_number ++ " using "
          ++ pyTitle inp.assistant ++ " assistant")),
        ("assistant_used", .str inp.assistant),
        ("assistant_id", .str assistant_id),
        ("phone_id", .str phone_id),
        ("customer_number", .str inp.destination_phone_number),
        ("customer_name", match inp.customer_name with
          | some n => .str n
          | none => .null),
        ("call_duration", pyDictGet ffields "duration"),
        ("call_started_at", pyDictGet ffields "startedAt"),
        ("call_ended_at", pyDictGet ffields "endedAt"),
        ("transcript", pyDictGet ffields "transcript"),
        ("cost", pyDictGet ffields "cost"),
        ("raw_response", .obj ffields)]

/-- The `error_type` tag chosen from the HTTP status (server.py lines
190-203). -/
def errorTypeFor (status : Nat) : String :=
  if status = 401 then "authentication_error"
  else if status = 403 then "authorization_error"
  else if status = 429 then "rate_limit_error"
  else if 500 ≤ status then "server_error"
  else "api_error"

/-- The remediation suggestion chosen from the HTTP status (server.py lines
190-203). -/
def suggestionFor (status : Nat) : String :=
  if status = 401 then "Check your VAPI_API_KEY is correct and active"
  else if status = 403 then "Check your account permissions and assistant/phone access"
  else if status = 429 then "Too many requests - wait before retrying"
  else if 500 ≤ status then "Vapi service is experiencing issues - try again later"
  else "Check your request parameters and try again"

/-- The detail extracted from a non-200 body (server.py lines 178-187): the
`message` field when the body parses to a dict, else the raw text.  When the
stored `message` value is `None`, `dict.get` returns it (the default applies
only to an absent key). -/
def apiErrorDetail (text : String) : Option Json → Json
  | some (.obj efields) => pyDictGetD efields "message" (.str text)
  | _ => .str text

/-- The code extracted from a non-200 body (server.py lines 178-187):
`parse_error` when parsing raised (either `response.json()` itself, or
`.get` on a non-dict parse, both caught by the bare `except`). -/
def apiErrorCode (body : Option Json) : Json :=
  match body with
  | some (.obj efields) => pyDictGetD efields "code" (.str "unknown")
  | _ => .str "parse_error"

/-- The API-error dictionary (server.py lines 205-217). -/
def apiErrorResult (inp : CallInput) (assistant_id phone_id : String)
    (status : Nat) (text : String) (body : Option Json) : Json :=
  .obj [("success", .bool false),
        ("error", .str ("Vapi API error (HTTP " ++ toString status ++ "): "
          ++ pyFStr (apiErrorDetail text body))),
        ("error_type", .str (errorTypeFor status)),
        ("error_code", apiErrorCode body),
        ("message", .str ("Failed to initiate call to "
          ++ inp.destination_phone_number ++ " using "
          ++ pyTitle inp.assistant ++ " assistant")),
        ("status_code", .num (status : Int)),
        ("assistant_requested", .str inp.assistant),
        ("assistant_id", .str assistant_id),
        ("phone_id", .str phone_id),
        ("customer_number", .str inp.destination_phone_number),
        ("suggestion", .str (suggestionFor status))]

/-- The timeout dictionary of the inner handler around the POST (server.py
lines 221-230). -/
def timeoutResult (inp : CallInput) (msg : String) : Json :=
  .obj [("success", .bool false),
        ("error", .str ("Request timeout after 60 seconds: " ++ msg)),
        ("error_type", .str "timeout_error"),
        ("message", .str ("Call initiation timed out for "
          ++ inp.destination_phone_number ++ " using "
          ++ pyTitle inp.assistant
          ++ " assistant - Vapi may still be processing")),
        ("timeout_seconds", .num 60),
        ("assistant_requested", .str inp.assistant),
        ("customer_number", .str inp.destination_phone_number),
        ("suggestion", .str "Check Vapi dashboard for call status or retry with a longer timeout")]

/-- The network-error dictionary (server.py lines 246-254). -/
def networkResult (inp : CallInput) (msg : String) : Json :=
  .obj [("success", .bool false),
        ("error", .str ("Network error: " ++ msg)),
        ("error_type", .str "network_error"),
        ("message", .str ("Failed to connect to Vapi API for "
          ++ inp.destination_phone_number ++ " using "
          ++ pyTitle inp.assistant
          ++ " assistant - check your internet connection")),
        ("assistant_requested", .str inp.assistant),
        ("customer_number", .str inp.destination_phone_number),
        ("suggestion", .str "Retry the call or check Vapi service status and your network connection")]

/-- The HTTP-status-error dictionary (server.py lines 257-266). -/
def httpStatusResult (inp : CallInput) (status : Nat) (msg : String) : Json :=
  .obj [("success", .bool false),
        ("error", .str ("HTTP error " ++ toString status ++ ": " ++ msg)),
        ("error_type", .str "http_error"),
        ("message", .str ("Vapi API returned an error status "
          ++ toString status ++ " for "
          ++ inp.destination_phone_number ++ " using "
          ++ pyTitle inp.assistant ++ " assistant")),
        ("status_code", .num (status : Int)),
        ("assistant_requested", .str inp.assistant),
        ("customer_number", .str inp.destination_phone_number),
        ("suggestion", .str "Check your API key and account status, or contact Vapi support")]

/-- The catch-all unexpected-error dictionary (server.py lines 269-278),
recording the concrete exception class name. -/
def unexpectedResult (inp : CallInput) (kind msg : String) : Json :=
  .obj [("success", .bool false),
        ("error", .str ("Unexpected error: " ++ msg)),
        ("error_type", .str "unexpected_error"),
        ("message", .str ("An unexpected error occurred while making call to "
          ++ inp.destination_phone_number ++ " using "
          ++ pyTitle inp.assistant ++ " assistant")),
        ("assistant_requested", .str inp.assistant),
        ("customer_number", .str inp.destination_phone_number),
        ("error_type_class", .str kind),
        ("suggestion", .str "Check server logs for more details or contact support")]

/-- Outcome of the best-effort detail fetch (server.py lines 144-155): the
parsed body only when the GET returned 200 with a parseable body; every other
outcome (timeout, network error, non-200 status, unparseable body, any other
exception) is swallowed by the local `except` and leaves `call_details` as
`None`. -/
def detailOutcome : HttpResult → Option Json
  | .response 200 _ (some j) => some j
  | _ => none

/-- The `make_vapi_call` tool (server.py lines 60-278).  Returns the result
dictionary and the list of HTTP requests the code attempts, in order.  A
request that times out is still listed (it was issued); a request the code
never reaches is not. -/
def make_vapi_call (inp : CallInput) (env : Env) (oracle : Oracle) :
    Json × List Request :=
  if pyLower inp.assistant ∉ (["andy", "mam"] : List String) then
    (validationResult inp, [])
  else if ¬(missingVars inp env).isEmpty then
    (configResult inp env, [])
  else
    let api_key := env.vapi_api_key.getD ""
    let assistant_id := (assistantIdOpt inp env).getD ""
    let phone_id := env.phone.getD ""
    let payload := buildPayload inp assistant_id phone_id
    let postReq := Request.post vapiCallUrl api_key payload 60
    match oracle.post with
    | .timeout msg => (timeoutResult inp msg, [postReq])
    | .requestError msg => (networkResult inp msg, [postReq])
    | .httpStatusError status msg => (httpStatusResult inp status msg, [postReq])
    | .otherError kind msg => (unexpectedResult inp kind msg, [postReq])
    | .response status text body =>
      if status = 200 then
        match body with
        | none =>
          -- `response.json()` raised; only the outer catch-all handles it.
          (unexpectedResult inp "JSONDecodeError"
            "Expecting value: line 1 column 1 (char 0)", [postReq])
        | some (.obj fields) =>
          let callIdOpt := getField fields "id"
          let callId := callIdOpt.getD .null
          if optTruthy callIdOpt then
            let getReq := Request.get (detailUrl callId) api_key 30
            let final_data :=
              match detailOutcome oracle.detail with
              | some j => if jsonTruthy j then j else Json.obj fields
              | none => Json.obj fields
            match final_data with
            | .obj ffields =>
              (successResult inp assistant_id phone_id callId ffields,
                [postReq, getReq])
            | fd =>
              -- `final_data.get` raised AttributeError on a non-dict parse.
              (unexpectedResult inp "AttributeError"
                ("\x27" ++ pyTypeName fd ++ "\x27 object has no attribute \x27get\x27"),
                [postReq, getReq])
          else
            (successResult inp assistant_id phone_id callId fields, [postReq])
        | some j =>
          -- `call_data.get` raised AttributeError on a non-dict parse.
          (unexpectedResult inp "AttributeError"
            ("\x27" ++ pyTypeName j ++ "\x27 object has no attribute \x27get\x27"),
            [postReq])
      else
        (apiErrorResult inp assistant_id phone_id status text body, [postReq])

/-- The result dictionary of one invocation. -/
def callResult (inp : CallInput) (env : Env) (oracle : Oracle) : Json :=
  (make_vapi_call inp env oracle).1

/-- The HTTP requests one invocation attempts. -/
def callRequests (inp : CallInput) (env : Env) (oracle : Oracle) : List Request :=
  (make_vapi_call inp env oracle).2

/-- C1: for every persona string whose lowercase form is not in the enumerated
set, the tool returns the validation-error dictionary — which names the
invalid value and the allowed set — issues no HTTP request, and does so
independently of the environment and of the remote API (validation precedes
configuration resolution and any network activity). -/
theorem claim_C1_invalid_persona_validation (inp : CallInput) (env : Env) (o : Oracle)
    (h : pyLower inp.assistant ∉ (["andy", "mam"] : List String)) :
    callResult inp env o = validationResult inp ∧
    (callResult inp env o).lookup "error" =
      some (.str ("Invalid assistant \x27" ++ inp.assistant
        ++ "\x27. Must be \x27andy\x27 or \x27mam\x27")) ∧
    (callResult inp env o).lookup "valid_options" =
      some (.arr [.str "andy", .str "mam"]) ∧
    (callResult inp env o).lookup "error_type" = some (.str "validation_error") ∧
    callRequests inp env o = [] ∧
    (∀ (env2 : Env) (o2 : Oracle), callResult inp env2 o2 = callResult inp env o) := by
  have key : ∀ (e : Env) (oo : Oracle), make_vapi_call inp e oo = (validationResult inp, []) := by
    intro e oo
    simp [make_vapi_call, h]
  refine ⟨by simp [callResult, key], ?_, ?_, ?_, by simp [callRequests, key], ?_⟩
  · simp [callResult, key, validationResult, Json.lookup, getField]
  · simp [callResult, key, validationResult, Json.lookup, getField]
  · simp [callResult, key, validationResult, Json.lookup, getField]
  · intro e2 o2
    simp [callResult, key]

/-- Witness for C1 at the persona `bob`. -/
theorem claim_C1_witness :
    callResult ⟨"+15551234567", none, "bob"⟩ ⟨none, none, none, none⟩
        ⟨.timeout "boom", .timeout "boom"⟩ =
      validationResult ⟨"+15551234567", none, "bob"⟩ :=
  (claim_C1_invalid_persona_validation _ _ _ (by decide)).1

/-- C2: with a valid persona, whenever any of the API key, the
persona-specific assistant id, or the phone id is unset or empty, the tool
returns the configuration-error dictionary whose `missing_variables` list
contains the name of every missing value (not only the first), and issues no
HTTP request. -/
theorem claim_C2_config_error_lists_all_missing (inp : CallInput) (env : Env) (o : Oracle)
    (hval : pyLower inp.assistant ∈ (["andy", "mam"] : List String))
    (hmiss : pyFalsy env.vapi_api_key = true ∨
      pyFalsy (assistantIdOpt inp env) = true ∨ pyFalsy env.phone = true) :
    callResult inp env o = configResult inp env ∧
    (callResult inp env o).lookup "error_type" = some (.str "configuration_error") ∧
    (callResult inp env o).lookup "missing_variables" =
      some (.arr ((missingVars inp env).map .str)) ∧
    (pyFalsy env.vapi_api_key = true → "VAPI_API_KEY" ∈ missingVars inp env) ∧
    (pyFalsy (assistantIdOpt inp env) = true → pyUpper inp.assistant ∈ missingVars inp env) ∧
    (pyFalsy env.phone = true → "PHONE" ∈ missingVars inp env) ∧
    callRequests inp env o = [] := by
  have h1 : ¬(pyLower inp.assistant ∉ (["andy", "mam"] : List String)) :=
    not_not_intro hval
  have hne : ¬(missingVars inp env).isEmpty := by
    rcases hmiss with h | h | h <;>
      simp [missingVars, h, List.isEmpty_iff]
  have hv2 : pyLower inp.assistant = "andy" ∨ pyLower inp.assistant = "mam" := by
    simpa using hval
  have key : make_vapi_call inp env o = (configResult inp env, []) := by
    rcases hv2 with h | h <;> simp [make_vapi_call, h, hne]
  refine ⟨by simp [callResult, key], ?_, ?_, ?_, ?_, ?_, by simp [callRequests, key]⟩
  · simp [callResult, key, configResult, Json.lookup, getField]
  · simp [callResult, key, configResult, Json.lookup, getField]
  · intro h
    simp [missingVars, h]
  · intro h
    simp [missingVars, h]
  · intro h
    simp [missingVars, h]

/-- Witness for C2: API key and the andy assistant id both unset, phone set;
both names appear in the missing list. -/
theorem claim_C2_witness :
    "VAPI_API_KEY" ∈ missingVars ⟨"+15551234567", some "Bob", "andy"⟩ ⟨none, none, none, some "ph1"⟩ ∧
    pyUpper "andy" ∈ missingVars ⟨"+15551234567", some "Bob", "andy"⟩ ⟨none, none, none, some "ph1"⟩ ∧
    callRequests ⟨"+15551234567", some "Bob", "andy"⟩ ⟨none, none, none, some "ph1"⟩
      ⟨.timeout "boom", .timeout "boom"⟩ = [] :=
  have t := claim_C2_config_error_lists_all_missing
    ⟨"+15551234567", some "Bob", "andy"⟩ ⟨none, none, none, some "ph1"⟩
    ⟨.timeout "boom", .timeout "boom"⟩ (by decide) (Or.inl (by decide))
  ⟨t.2.2.2.1 (by decide), t.2.2.2.2.1 (by decide), t.2.2.2.2.2.2⟩

/-- C3: when the initiation POST returns HTTP 200 with a record whose `id` is
present and truthy, and the follow-up detail GET fails in any of the swallowed
ways (timeout, network error, non-200 status, unparseable body — exactly the
outcomes on which `detailOutcome` is `none`), the result is still the success
dictionary built from the initial record, with no error key surfaced. -/
theorem claim_C3_followup_failure_still_success
    (inp : CallInput) (env : Env) (o : Oracle)
    (hval : pyLower inp.assistant ∈ (["andy", "mam"] : List String))
    (hcfg : missingVars inp env = [])
    (txt : String) (fields : List (String × Json))
    (hpost : o.post = .response 200 txt (some (.obj fields)))
    (idv : Json) (hid : getField fields "id" = some idv)
    (hidt : jsonTruthy idv = true)
    (hfail : detailOutcome o.detail = none) :
    callResult inp env o =
      successResult inp ((assistantIdOpt inp env).getD "") (env.phone.getD "") idv fields ∧
    (callResult inp env o).lookup "success" = some (.bool true) ∧
    (callResult inp env o).lookup "call_id" = some idv ∧
    (callResult inp env o).lookup "raw_response" = some (.obj fields) ∧
    (callResult inp env o).lookup "error" = none ∧
    (callResult inp env o).lookup "error_type" = none := by
  have hv2 : pyLower inp.assistant = "andy" ∨ pyLower inp.assistant = "mam" := by
    simpa using hval
  have key : callResult inp env o =
      successResult inp ((assistantIdOpt inp env).getD "") (env.phone.getD "") idv fields := by
    rcases hv2 with h | h <;>
      simp [callResult, make_vapi_call, h, hcfg, hpost, hid, optTruthy, hidt, hfail]
  refine ⟨key, ?_, ?_, ?_, ?_, ?_⟩ <;>
    simp [key, successResult, Json.lookup, getField]

/-- Witness for C3: the POST returns 200 with id abc and the follow-up GET
times out; the result is the success dictionary from the initial record. -/
theorem claim_C3_witness :
    (callResult ⟨"+15551234567", some "Bob", "andy"⟩
        ⟨some "key1", some "aid-andy", some "aid-mam", some "ph1"⟩
        ⟨.response 200 "" (some (.obj [("id", .str "abc")])), .timeout "slow"⟩).lookup
      "success" = some (.bool true) ∧
    (callResult ⟨"+15551234567", some "Bob", "andy"⟩
        ⟨some "key1", some "aid-andy", some "aid-mam", some "ph1"⟩
        ⟨.response 200 "" (some (.obj [("id", .str "abc")])), .timeout "slow"⟩).lookup
      "error_type" = none :=
  have t := claim_C3_followup_failure_still_success
    ⟨"+15551234567", some "Bob", "andy"⟩
    ⟨some "key1", some "aid-andy", some "aid-mam", some "ph1"⟩
    ⟨.response 200 "" (some (.obj [("id", .str "abc")])), .timeout "slow"⟩
    (by decide) (by decide) "" [("id", .str "abc")] rfl (.str "abc") rfl rfl rfl
  ⟨t.2.1, t.2.2.2.2.2⟩

/-- C4 counterexample: in exactly the claimed scenario — POST 200 with
`id:"abc"`, follow-up GET 200 with `status:"queued"`, `duration:null` — the
`call_duration` key IS present in the result (with value null), contradicting
the claim that omitted/nulled optional fields are absent from the result. -/
theorem claim_C4_counterexample :
    (callResult ⟨"+15551234567", none, "andy"⟩
        ⟨some "key1", some "aid-andy", some "aid-mam", some "ph1"⟩
        ⟨.response 200 "" (some (.obj [("id", .str "abc")])),
         .response 200 "" (some (.obj [("status", .str "queued"), ("duration", .null)]))⟩).lookup
      "call_id" = some (.str "abc") ∧
    (callResult ⟨"+15551234567", none, "andy"⟩
        ⟨some "key1", some "aid-andy", some "aid-mam", some "ph1"⟩
        ⟨.response 200 "" (some (.obj [("id", .str "abc")])),
         .response 200 "" (some (.obj [("status", .str "queued"), ("duration", .null)]))⟩).lookup
      "status" = some (.str "queued") ∧
    ¬((callResult ⟨"+15551234567", none, "andy"⟩
        ⟨some "key1", some "aid-andy", some "aid-mam", some "ph1"⟩
        ⟨.response 200 "" (some (.obj [("id", .str "abc")])),
         .response 200 "" (some (.obj [("status", .str "queued"), ("duration", .null)]))⟩).lookup
      "call_duration" = none) := by
  refine ⟨rfl, rfl, ?_⟩
  intro hn
  have h : (callResult ⟨"+15551234567", none, "andy"⟩
        ⟨some "key1", some "aid-andy", some "aid-mam", some "ph1"⟩
        ⟨.response 200 "" (some (.obj [("id", .str "abc")])),
         .response 200 "" (some (.obj [("status", .str "queued"), ("duration", .null)]))⟩).lookup
      "call_duration" = some .null := rfl
  rw [h] at hn
  exact Option.noConfusion hn

/-- C4 amended: in the claimed scenario the result is Success with the
claimed `call_id` and `status`, but an optional field the remote API omitted
or nulled (such as `duration`) is present in the result with value null — it
is not absent, and not defaulted to zero or false. -/
theorem claim_C4_success_nulls_optional_fields
    (inp : CallInput) (env : Env) (o : Oracle)
    (hval : pyLower inp.assistant ∈ (["andy", "mam"] : List String))
    (hcfg : missingVars inp env = [])
    (txt dtxt : String) (fields dfields : List (String × Json))
    (hpost : o.post = .response 200 txt (some (.obj fields)))
    (idv : Json) (hid : getField fields "id" = some idv)
    (hidt : jsonTruthy idv = true)
    (hdet : o.detail = .response 200 dtxt (some (.obj dfields)))
    (hdne : dfields ≠ [])
    (hstatus : getField dfields "status" = some (.str "queued"))
    (hdur : getField dfields "duration" = none ∨ getField dfields "duration" = some .null) :
    (callResult inp env o).lookup "success" = some (.bool true) ∧
    (callResult inp env o).lookup "call_id" = some idv ∧
    (callResult inp env o).lookup "status" = some (.str "queued") ∧
    (callResult inp env o).lookup "call_duration" = some .null := by
  have hv2 : pyLower inp.assistant = "andy" ∨ pyLower inp.assistant = "mam" := by
    simpa using hval
  have key : callResult inp env o =
      successResult inp ((assistantIdOpt inp env).getD "") (env.phone.getD "") idv dfields := by
    have hdt : jsonTruthy (Json.obj dfields) = true := by
      simp [jsonTruthy, hdne]
    rcases hv2 with h | h <;>
      simp [callResult, make_vapi_call, h, hcfg, hpost, hid, optTruthy, hidt,
        hdet, detailOutcome, hdt]
  have hcd : pyDictGet dfields "duration" = Json.null := by
    rcases hdur with h | h <;> simp [pyDictGet, h]
  refine ⟨?_, ?_, ?_, ?_⟩ <;>
    simp [key, successResult, Json.lookup, getField, pyDictGetD, hstatus, hcd]

/-- Witness for C4 amended, at the claimed concrete scenario. -/
theorem claim_C4_witness :
    (callResult ⟨"+15551234567", none, "andy"⟩
        ⟨some "key1", some "aid-andy", some "aid-mam", some "ph1"⟩
        ⟨.response 200 "" (some (.obj [("id", .str "abc")])),
         .response 200 "" (some (.obj [("status", .str "queued"), ("duration", .null)]))⟩).lookup
      "call_id" = some (.str "abc") ∧
    (callResult ⟨"+15551234567", none, "andy"⟩
        ⟨some "key1", some "aid-andy", some "aid-mam", some "ph1"⟩
        ⟨.response 200 "" (some (.obj [("id", .str "abc")])),
         .response 200 "" (some (.obj [("status", .str "queued"), ("duration", .null)]))⟩).lookup
      "call_duration" = some .null :=
  have t := claim_C4_success_nulls_optional_fields
    ⟨"+15551234567", none, "andy"⟩
    ⟨some "key1", some "aid-andy", some "aid-mam", some "ph1"⟩
    ⟨.response 200 "" (some (.obj [("id", .str "abc")])),
     .response 200 "" (some (.obj [("status", .str "queued"), ("duration", .null)]))⟩
    (by decide) (by decide) "" "" [("id", .str "abc")]
    [("status", .str "queued"), ("duration", .null)]
    rfl (.str "abc") rfl rfl rfl (by simp) rfl (Or.inr rfl)
  ⟨t.2.1, t.2.2.2⟩

/-- Helper: with a valid persona and a complete configuration, the result of
`make_vapi_call` is one of the six dictionaries of the call phase. -/
theorem callResult_shape (inp : CallInput) (env : Env) (o : Oracle)
    (hv2 : pyLower inp.assistant = "andy" ∨ pyLower inp.assistant = "mam")
    (hcfg : missingVars inp env = []) :
    (∃ msg, callResult inp env o = timeoutResult inp msg) ∨
    (∃ msg, callResult inp env o = networkResult inp msg) ∨
    (∃ st msg, callResult inp env o = httpStatusResult inp st msg) ∨
    (∃ kind msg, callResult inp env o = unexpectedResult inp kind msg) ∨
    (∃ st txt body, st ≠ 200 ∧ callResult inp env o =
      apiErrorResult inp ((assistantIdOpt inp env).getD "") (env.phone.getD "") st txt body) ∨
    (∃ cid ff, callResult inp env o =
      successResult inp ((assistantIdOpt inp env).getD "") (env.phone.getD "") cid ff) := by
  obtain ⟨post, det⟩ := o
  cases post with
  | timeout msg =>
    exact Or.inl ⟨msg, by rcases hv2 with h | h <;>
      simp [callResult, make_vapi_call, h, hcfg]⟩
  | requestError msg =>
    exact Or.inr (Or.inl ⟨msg, by rcases hv2 with h | h <;>
      simp [callResult, make_vapi_call, h, hcfg]⟩)
  | httpStatusError st msg =>
    exact Or.inr (Or.inr (Or.inl ⟨st, msg, by rcases hv2 with h | h <;>
      simp [callResult, make_vapi_call, h, hcfg]⟩))
  | otherError kind msg =>
    exact Or.inr (Or.inr (Or.inr (Or.inl ⟨kind, msg, by rcases hv2 with h | h <;>
      simp [callResult, make_vapi_call, h, hcfg]⟩)))
  | response st txt body =>
    by_cases h200 : st = 200
    · subst h200
      cases body with
      | none =>
        refine Or.inr (Or.inr (Or.inr (Or.inl ⟨"JSONDecodeError",
          "Expecting value: line 1 column 1 (char 0)", ?_⟩)))
        rcases hv2 with h | h <;> simp [callResult, make_vapi_call, h, hcfg]
      | some j =>
        cases j with
        | obj fields =>
          cases hidt : optTruthy (getField fields "id") with
          | false =>
            refine Or.inr (Or.inr (Or.inr (Or.inr (Or.inr
              ⟨(getField fields "id").getD .null, fields, ?_⟩))))
            rcases hv2 with h | h <;>
              simp [callResult, make_vapi_call, h, hcfg, hidt]
          | true =>
            cases hdo : detailOutcome det with
            | none =>
              refine Or.inr (Or.inr (Or.inr (Or.inr (Or.inr
                ⟨(getField fields "id").getD .null, fields, ?_⟩))))
              rcases hv2 with h | h <;>
                simp [callResult, make_vapi_call, h, hcfg, hidt, hdo]
            | some dj =>
              cases hdt : jsonTruthy dj with
              | false =>
                refine Or.inr (Or.inr (Or.inr (Or.inr (Or.inr
                  ⟨(getField fields "id").getD .null, fields, ?_⟩))))
                rcases hv2 with h | h <;>
                  simp [callResult, make_vapi_call, h, hcfg, hidt, hdo, hdt]
              | true =>
                cases dj with
                | obj dff =>
                  refine Or.inr (Or.inr (Or.inr (Or.inr (Or.inr
                    ⟨(getField fields "id").getD .null, dff, ?_⟩))))
                  rcases hv2 with h | h <;>
                    simp [callResult, make_vapi_call, h, hcfg, hidt, hdo, hdt]
                | null =>
                  exact absurd hdt (by simp [jsonTruthy])
                | bool b =>
                  refine Or.inr (Or.inr (Or.inr (Or.inl
                    ⟨"AttributeError", "\x27bool\x27 object has no attribute \x27get\x27", ?_⟩)))
                  rcases hv2 with h | h <;>
                    simp [callResult, make_vapi_call, h, hcfg, hidt, hdo, hdt, pyTypeName]
                | num n =>
                  refine Or.inr (Or.inr (Or.inr (Or.inl
                    ⟨"AttributeError", "\x27int\x27 object has no attribute \x27get\x27", ?_⟩)))
                  rcases hv2 with h | h <;>
                    simp [callResult, make_vapi_call, h, hcfg, hidt, hdo, hdt, pyTypeName]
                | str s =>
                  refine Or.inr (Or.inr (Or.inr (Or.inl
                    ⟨"AttributeError", "\x27str\x27 object has no attribute \x27get\x27", ?_⟩)))
                  rcases hv2 with h | h <;>
                    simp [callResult, make_vapi_call, h, hcfg, hidt, hdo, hdt, pyTypeName]
                | arr xs =>
                  refine Or.inr (Or.inr (Or.inr (Or.inl
                    ⟨"AttributeError", "\x27list\x27 object has no attribute \x27get\x27", ?_⟩)))
                  rcases hv2 with h | h <;>
                    simp [callResult, make_vapi_call, h, hcfg, hidt, hdo, hdt, pyTypeName]
        | null =>
          refine Or.inr (Or.inr (Or.inr (Or.inl
            ⟨"AttributeError", "\x27NoneType\x27 object has no attribute \x27get\x27", ?_⟩)))
          rcases hv2 with h | h <;> simp [callResult, make_vapi_call, h, hcfg, pyTypeName]
        | bool b =>
          refine Or.inr (Or.inr (Or.inr (Or.inl
            ⟨"AttributeError", "\x27bool\x27 object has no attribute \x27get\x27", ?_⟩)))
          rcases hv2 with h | h <;> simp [callResult, make_vapi_call, h, hcfg, pyTypeName]
        | num n =>
          refine Or.inr (Or.inr (Or.inr (Or.inl
            ⟨"AttributeError", "\x27int\x27 object has no attribute \x27get\x27", ?_⟩)))
          rcases hv2 with h | h <;> simp [callResult, make_vapi_call, h, hcfg, pyTypeName]
        | str s =>
          refine Or.inr (Or.inr (Or.inr (Or.inl
            ⟨"AttributeError", "\x27str\x27 object has no attribute \x27get\x27", ?_⟩)))
          rcases hv2 with h | h <;> simp [callResult, make_vapi_call, h, hcfg, pyTypeName]
        | arr xs =>
          refine Or.inr (Or.inr (Or.inr (Or.inl
            ⟨"AttributeError", "\x27list\x27 object has no attribute \x27get\x27", ?_⟩)))
          rcases hv2 with h | h <;> simp [callResult, make_vapi_call, h, hcfg, pyTypeName]
    · refine Or.inr (Or.inr (Or.inr (Or.inr (Or.inl ⟨st, txt, body, h200, ?_⟩))))
      rcases hv2 with h | h <;> simp [callResult, make_vapi_call, h, hcfg, h200]

/-- C5 counterexample: the validation-error outcome does not restate the
destination phone number (no `customer_number` key), refuting the claim that
every outcome variant includes a restated copy of the input parameters. -/
theorem claim_C5_counterexample :
    (callResult ⟨"+15551234567", none, "bob"⟩
        ⟨some "key1", some "aid-andy", some "aid-mam", some "ph1"⟩
        ⟨.timeout "t", .timeout "t"⟩).lookup "error_type" =
      some (.str "validation_error") ∧
    (callResult ⟨"+15551234567", none, "bob"⟩
        ⟨some "key1", some "aid-andy", some "aid-mam", some "ph1"⟩
        ⟨.timeout "t", .timeout "t"⟩).lookup "customer_number" = none :=
  ⟨rfl, rfl⟩

/-- C5 amended: which input parameters each outcome variant restates.  The
ValidationError outcome restates neither the destination number nor the
persona; the ConfigurationError outcome restates the persona only; once the
persona is valid and the configuration complete, every outcome restates the
destination number and the persona, the timeout, network, HTTP-status and
unexpected outcomes do not restate the resolved assistant id, and the
ApiError and Success outcomes — the latter whether built from the initial or
from the enriched record — additionally restate the resolved assistant id. -/
theorem claim_C5_call_phase_outcomes_restate_inputs
    (inp : CallInput) (env : Env) (o : Oracle) :
    (pyLower inp.assistant ∉ (["andy", "mam"] : List String) →
      callResult inp env o = validationResult inp ∧
      (callResult inp env o).lookup "customer_number" = none ∧
      (callResult inp env o).lookup "assistant_requested" = none ∧
      (callResult inp env o).lookup "assistant_used" = none ∧
      (callResult inp env o).lookup "assistant_id" = none) ∧
    (pyLower inp.assistant ∈ (["andy", "mam"] : List String) →
      missingVars inp env ≠ [] →
      callResult inp env o = configResult inp env ∧
      (callResult inp env o).lookup "assistant_requested" = some (.str inp.assistant) ∧
      (callResult inp env o).lookup "customer_number" = none ∧
      (callResult inp env o).lookup "assistant_used" = none ∧
      (callResult inp env o).lookup "assistant_id" = none) ∧
    (pyLower inp.assistant ∈ (["andy", "mam"] : List String) →
      missingVars inp env = [] →
      ((callResult inp env o).lookup "customer_number" =
          some (.str inp.destination_phone_number) ∧
        ((callResult inp env o).lookup "assistant_used" = some (.str inp.assistant) ∨
         (callResult inp env o).lookup "assistant_requested" = some (.str inp.assistant))) ∧
      (∀ msg, o.post = .timeout msg →
        callResult inp env o = timeoutResult inp msg ∧
        (callResult inp env o).lookup "assistant_requested" = some (.str inp.assistant) ∧
        (callResult inp env o).lookup "assistant_id" = none) ∧
      (∀ msg, o.post = .requestError msg →
        callResult inp env o = networkResult inp msg ∧
        (callResult inp env o).lookup "assistant_requested" = some (.str inp.assistant) ∧
        (callResult inp env o).lookup "assistant_id" = none) ∧
      (∀ st msg, o.post = .httpStatusError st msg →
        callResult inp env o = httpStatusResult inp st msg ∧
        (callResult inp env o).lookup "assistant_requested" = some (.str inp.assistant) ∧
        (callResult inp env o).lookup "assistant_id" = none) ∧
      (∀ kind msg, callResult inp env o = unexpectedResult inp kind msg →
        (callResult inp env o).lookup "assistant_requested" = some (.str inp.assistant) ∧
        (callResult inp env o).lookup "assistant_id" = none) ∧
      (∀ st txt body, o.post = .response st txt body → st ≠ 200 →
        (callResult inp env o).lookup "assistant_requested" = some (.str inp.assistant) ∧
        (callResult inp env o).lookup "assistant_id" =
          some (.str ((assistantIdOpt inp env).getD ""))) ∧
      (∀ txt fields, o.post = .response 200 txt (some (.obj fields)) →
        detailOutcome o.detail = none →
        (callResult inp env o).lookup "assistant_used" = some (.str inp.assistant) ∧
        (callResult inp env o).lookup "assistant_id" =
          some (.str ((assistantIdOpt inp env).getD ""))) ∧
      (∀ txt dtxt fields dff, o.post = .response 200 txt (some (.obj fields)) →
        optTruthy (getField fields "id") = true →
        o.detail = .response 200 dtxt (some (.obj dff)) → dff ≠ [] →
        callResult inp env o =
          successResult inp ((assistantIdOpt inp env).getD "") (env.phone.getD "")
            ((getField fields "id").getD .null) dff ∧
        (callResult inp env o).lookup "assistant_used" = some (.str inp.assistant) ∧
        (callResult inp env o).lookup "assistant_id" =
          some (.str ((assistantIdOpt inp env).getD "")))) := by
  refine ⟨?_, ?_, ?_⟩
  · intro hinv
    have key : callResult inp env o = validationResult inp := by
      simp [callResult, make_vapi_call, hinv]
    refine ⟨key, ?_, ?_, ?_, ?_⟩ <;>
      simp [key, validationResult, Json.lookup, getField]
  · intro hval hmiss
    have hv2 : pyLower inp.assistant = "andy" ∨ pyLower inp.assistant = "mam" := by
      simpa using hval
    have hne : ¬(missingVars inp env).isEmpty := by
      simpa [List.isEmpty_iff] using hmiss
    have key : callResult inp env o = configResult inp env := by
      rcases hv2 with h | h <;> simp [callResult, make_vapi_call, h, hne]
    refine ⟨key, ?_, ?_, ?_, ?_⟩ <;>
      simp [key, configResult, Json.lookup, getField]
  · intro hval hcfg
    have hv2 : pyLower inp.assistant = "andy" ∨ pyLower inp.assistant = "mam" := by
      simpa using hval
    refine ⟨?_, ?_, ?_, ?_, ?_, ?_, ?_, ?_⟩
    · rcases callResult_shape inp env o hv2 hcfg with
        ⟨msg, h⟩ | ⟨msg, h⟩ | ⟨st, msg, h⟩ | ⟨kind, msg, h⟩ |
        ⟨st, txt, body, hne2, h⟩ | ⟨cid, ff, h⟩ <;>
        rw [h] <;> constructor <;>
        simp [timeoutResult, networkResult, httpStatusResult, unexpectedResult,
          apiErrorResult, successResult, Json.lookup, getField]
    · intro msg hpost
      have key : callResult inp env o = timeoutResult inp msg := by
        rcases hv2 with h | h <;>
          simp [callResult, make_vapi_call, h, hcfg, hpost]
      refine ⟨key, ?_, ?_⟩ <;>
        simp [key, timeoutResult, Json.lookup, getField]
    · intro msg hpost
      have key : callResult inp env o = networkResult inp msg := by
        rcases hv2 with h | h <;>
          simp [callResult, make_vapi_call, h, hcfg, hpost]
      refine ⟨key, ?_, ?_⟩ <;>
        simp [key, networkResult, Json.lookup, getField]
    · intro st msg hpost
      have key : callResult inp env o = httpStatusResult inp st msg := by
        rcases hv2 with h | h <;>
          simp [callResult, make_vapi_call, h, hcfg, hpost]
      refine ⟨key, ?_, ?_⟩ <;>
        simp [key, httpStatusResult, Json.lookup, getField]
    · intro kind msg hEq
      rw [hEq]
      constructor <;> simp [unexpectedResult, Json.lookup, getField]
    · intro st txt body hpost hne2
      have key : callResult inp env o =
          apiErrorResult inp ((assistantIdOpt inp env).getD "") (env.phone.getD "")
            st txt body := by
        rcases hv2 with h | h <;>
          simp [callResult, make_vapi_call, h, hcfg, hpost, hne2]
      constructor <;> simp [key, apiErrorResult, Json.lookup, getField]
    · intro txt fields hpost hdo
      cases hidt : optTruthy (getField fields "id") with
      | false =>
        have key : callResult inp env o =
            successResult inp ((assistantIdOpt inp env).getD "") (env.phone.getD "")
              ((getField fields "id").getD .null) fields := by
          rcases hv2 with h | h <;>
            simp [callResult, make_vapi_call, h, hcfg, hpost, hidt]
        constructor <;> simp [key, successResult, Json.lookup, getField]
      | true =>
        have key : callResult inp env o =
            successResult inp ((assistantIdOpt inp env).getD "") (env.phone.getD "")
              ((getField fields "id").getD .null) fields := by
          rcases hv2 with h | h <;>
            simp [callResult, make_vapi_call, h, hcfg, hpost, hidt, hdo]
        constructor <;> simp [key, successResult, Json.lookup, getField]
    · intro txt dtxt fields dff hpost hidt hdet hdne
      have hdt : jsonTruthy (Json.obj dff) = true := by
        simp [jsonTruthy, hdne]
      have key : callResult inp env o =
          successResult inp ((assistantIdOpt inp env).getD "") (env.phone.getD "")
            ((getField fields "id").getD .null) dff := by
        rcases hv2 with h | h <;>
          simp [callResult, make_vapi_call, h, hcfg, hpost, hidt, hdet,
            detailOutcome, hdt]
      refine ⟨key, ?_, ?_⟩ <;>
        simp [key, successResult, Json.lookup, getField]

/-- Witness for C5 amended: a network error restates destination and persona
but not the assistant id, and a validation error restates no persona. -/
theorem claim_C5_witness :
    (callResult ⟨"+15551234567", some "Bob", "mam"⟩
        ⟨some "key1", some "aid-andy", some "aid-mam", some "ph1"⟩
        ⟨.requestError "dns", .timeout "t"⟩).lookup "customer_number" =
      some (.str "+15551234567") ∧
    (callResult ⟨"+15551234567", some "Bob", "mam"⟩
        ⟨some "key1", some "aid-andy", some "aid-mam", some "ph1"⟩
        ⟨.requestError "dns", .timeout "t"⟩).lookup "assistant_id" = none ∧
    (callResult ⟨"+15551234567", none, "bob"⟩
        ⟨some "key1", some "aid-andy", some "aid-mam", some "ph1"⟩
        ⟨.timeout "t", .timeout "t"⟩).lookup "assistant_requested" = none :=
  have t := (claim_C5_call_phase_outcomes_restate_inputs
    ⟨"+15551234567", some "Bob", "mam"⟩
    ⟨some "key1", some "aid-andy", some "aid-mam", some "ph1"⟩
    ⟨.requestError "dns", .timeout "t"⟩).2.2 (by decide) (by decide)
  have v := (claim_C5_call_phase_outcomes_restate_inputs
    ⟨"+15551234567", none, "bob"⟩
    ⟨some "key1", some "aid-andy", some "aid-mam", some "ph1"⟩
    ⟨.timeout "t", .timeout "t"⟩).1 (by decide)
  ⟨t.1.1, (t.2.2.1 "dns" rfl).2.2, v.2.2.1⟩

/-- C6: every non-200 response to the initiation POST yields the API-error
dictionary, whose `error_type` is classified from the status exactly by the
fixed table (401 authentication, 403 authorization, 429 rate limit, at least
500 server, anything else generic `api_error`), each with a fixed non-empty
suggestion string. -/
theorem claim_C6_api_error_category_table
    (inp : CallInput) (env : Env) (o : Oracle)
    (hval : pyLower inp.assistant ∈ (["andy", "mam"] : List String))
    (hcfg : missingVars inp env = [])
    (st : Nat) (txt : String) (body : Option Json)
    (hpost : o.post = .response st txt body) (hne : st ≠ 200) :
    callResult inp env o =
      apiErrorResult inp ((assistantIdOpt inp env).getD "") (env.phone.getD "") st txt body ∧
    (callResult inp env o).lookup "error_type" = some (.str (errorTypeFor st)) ∧
    (callResult inp env o).lookup "suggestion" = some (.str (suggestionFor st)) ∧
    (st = 401 → errorTypeFor st = "authentication_error") ∧
    (st = 403 → errorTypeFor st = "authorization_error") ∧
    (st = 429 → errorTypeFor st = "rate_limit_error") ∧
    (500 ≤ st → errorTypeFor st = "server_error") ∧
    (st ≠ 401 → st ≠ 403 → st ≠ 429 → st < 500 → errorTypeFor st = "api_error") ∧
    suggestionFor st ≠ "" := by
  have hv2 : pyLower inp.assistant = "andy" ∨ pyLower inp.assistant = "mam" := by
    simpa using hval
  have key : callResult inp env o =
      apiErrorResult inp ((assistantIdOpt inp env).getD "") (env.phone.getD "")
        st txt body := by
    rcases hv2 with h | h <;>
      simp [callResult, make_vapi_call, h, hcfg, hpost, hne]
  refine ⟨key, ?_, ?_, ?_, ?_, ?_, ?_, ?_, ?_⟩
  · rw [key]; simp [apiErrorResult, Json.lookup, getField]
  · rw [key]; simp [apiErrorResult, Json.lookup, getField]
  · intro h; subst h; rfl
  · intro h; subst h; rfl
  · intro h; subst h; rfl
  · intro h
    have h1 : st ≠ 401 := by omega
    have h2 : st ≠ 403 := by omega
    have h3 : st ≠ 429 := by omega
    simp [errorTypeFor, h1, h2, h3, h]
  · intro h1 h2 h3 h4
    have h5 : ¬(500 ≤ st) := by omega
    simp [errorTypeFor, h1, h2, h3, h5]
  · unfold suggestionFor
    split_ifs <;> decide

/-- Witness for C6 at HTTP 401: result is the API error with category
authentication and a non-empty suggestion. -/
theorem claim_C6_witness :
    (callResult ⟨"+15551234567", none, "andy"⟩
        ⟨some "key1", some "aid-andy", some "aid-mam", some "ph1"⟩
        ⟨.response 401 "unauthorized" none, .timeout "t"⟩).lookup "error_type" =
      some (.str (errorTypeFor 401)) ∧
    errorTypeFor 401 = "authentication_error" ∧
    suggestionFor 401 ≠ "" :=
  have t := claim_C6_api_error_category_table
    ⟨"+15551234567", none, "andy"⟩
    ⟨some "key1", some "aid-andy", some "aid-mam", some "ph1"⟩
    ⟨.response 401 "unauthorized" none, .timeout "t"⟩
    (by decide) (by decide) 401 "unauthorized" none rfl (by decide)
  ⟨t.2.1, t.2.2.2.1 rfl, t.2.2.2.2.2.2.2.2⟩

/-- C7: when the initiation POST times out, the result is the timeout
dictionary; the recorded `timeout_seconds` (60) equals the timeout configured
on the POST request itself, and no follow-up GET is attempted — the request
trace is exactly the one POST, issued with a 60-second timeout. -/
theorem claim_C7_post_timeout
    (inp : CallInput) (env : Env) (o : Oracle)
    (hval : pyLower inp.assistant ∈ (["andy", "mam"] : List String))
    (hcfg : missingVars inp env = [])
    (msg : String) (hpost : o.post = .timeout msg) :
    callResult inp env o = timeoutResult inp msg ∧
    (callResult inp env o).lookup "error_type" = some (.str "timeout_error") ∧
    (callResult inp env o).lookup "timeout_seconds" = some (.num 60) ∧
    callRequests inp env o =
      [Request.post vapiCallUrl (env.vapi_api_key.getD "")
        (buildPayload inp ((assistantIdOpt inp env).getD "") (env.phone.getD "")) 60] ∧
    (∀ u k t, Request.get u k t ∉ callRequests inp env o) := by
  have hv2 : pyLower inp.assistant = "andy" ∨ pyLower inp.assistant = "mam" := by
    simpa using hval
  have key : make_vapi_call inp env o = (timeoutResult inp msg,
      [Request.post vapiCallUrl (env.vapi_api_key.getD "")
        (buildPayload inp ((assistantIdOpt inp env).getD "") (env.phone.getD "")) 60]) := by
    rcases hv2 with h | h <;>
      simp [make_vapi_call, h, hcfg, hpost]
  refine ⟨?_, ?_, ?_, ?_, ?_⟩
  · simp [callResult, key]
  · simp [callResult, key, timeoutResult, Json.lookup, getField]
  · simp [callResult, key, timeoutResult, Json.lookup, getField]
  · simp [callRequests, key]
  · intro u k t
    simp [callRequests, key]

/-- Witness for C7: a timed-out POST with full configuration. -/
theorem claim_C7_witness :
    (callResult ⟨"+15551234567", none, "mam"⟩
        ⟨some "key1", some "aid-andy", some "aid-mam", some "ph1"⟩
        ⟨.timeout "read timeout", .timeout "t"⟩).lookup "timeout_seconds" =
      some (.num 60) ∧
    callRequests ⟨"+15551234567", none, "mam"⟩
        ⟨some "key1", some "aid-andy", some "aid-mam", some "ph1"⟩
        ⟨.timeout "read timeout", .timeout "t"⟩ =
      [Request.post vapiCallUrl "key1"
        (buildPayload ⟨"+15551234567", none, "mam"⟩ "aid-mam" "ph1") 60] :=
  have t := claim_C7_post_timeout
    ⟨"+15551234567", none, "mam"⟩
    ⟨some "key1", some "aid-andy", some "aid-mam", some "ph1"⟩
    ⟨.timeout "read timeout", .timeout "t"⟩
    (by decide) (by decide) "read timeout" rfl
  ⟨t.2.2.1, t.2.2.2.1⟩

/-- Helper: with a valid persona and complete configuration, whatever the
remote API does, the first request attempted is the POST to the
call-initiation endpoint carrying the built payload and the 60-second
timeout. -/
theorem callRequests_head (inp : CallInput) (env : Env) (o : Oracle)
    (hv2 : pyLower inp.assistant = "andy" ∨ pyLower inp.assistant = "mam")
    (hcfg : missingVars inp env = []) :
    (callRequests inp env o).head? =
      some (Request.post vapiCallUrl (env.vapi_api_key.getD "")
        (buildPayload inp ((assistantIdOpt inp env).getD "") (env.phone.getD "")) 60) := by
  obtain ⟨post, det⟩ := o
  rcases hv2 with h | h <;> cases post <;>
    simp [callRequests, make_vapi_call, h, hcfg] <;>
    (repeat' split) <;> simp

/-- C8: the wire payload of the initiation POST has exactly the keys
`assistantId`, `phoneNumberId` and `customer`; the customer object holds the
unmodified destination number and, exactly when a non-empty customer name was
supplied, the unmodified name; and this payload is what the first attempted
request carries. -/
theorem claim_C8_wire_payload
    (inp : CallInput) (env : Env) (o : Oracle)
    (hval : pyLower inp.assistant ∈ (["andy", "mam"] : List String))
    (hcfg : missingVars inp env = []) :
    (callRequests inp env o).head? =
      some (Request.post vapiCallUrl (env.vapi_api_key.getD "")
        (buildPayload inp ((assistantIdOpt inp env).getD "") (env.phone.getD "")) 60) ∧
    (buildPayload inp ((assistantIdOpt inp env).getD "") (env.phone.getD "")).keys =
      ["assistantId", "phoneNumberId", "customer"] ∧
    (buildPayload inp ((assistantIdOpt inp env).getD "") (env.phone.getD "")).lookup
      "assistantId" = some (.str ((assistantIdOpt inp env).getD "")) ∧
    (buildPayload inp ((assistantIdOpt inp env).getD "") (env.phone.getD "")).lookup
      "phoneNumberId" = some (.str (env.phone.getD "")) ∧
    (buildPayload inp ((assistantIdOpt inp env).getD "") (env.phone.getD "")).lookup
      "customer" = some (.obj (customerFields inp)) ∧
    getField (customerFields inp) "number" =
      some (.str inp.destination_phone_number) ∧
    (∀ n, inp.customer_name = some n → n.isEmpty = false →
      (customerFields inp).map Prod.fst = ["number", "name"] ∧
      getField (customerFields inp) "name" = some (.str n)) ∧
    (pyFalsy inp.customer_name = true →
      (customerFields inp).map Prod.fst = ["number"]) := by
  have hv2 : pyLower inp.assistant = "andy" ∨ pyLower inp.assistant = "mam" := by
    simpa using hval
  refine ⟨callRequests_head inp env o hv2 hcfg, ?_, ?_, ?_, ?_, ?_, ?_, ?_⟩
  · simp [buildPayload, Json.keys]
  · simp [buildPayload, Json.lookup, getField]
  · simp [buildPayload, Json.lookup, getField]
  · simp [buildPayload, Json.lookup, getField]
  · simp [customerFields, getField]
  · intro n hn hne
    simp [customerFields, getField, hn, hne]
  · intro hf
    cases hn : inp.customer_name with
    | none => simp [customerFields, hn]
    | some n =>
      rw [hn] at hf
      simp [pyFalsy] at hf
      simp [customerFields, hn, hf]

/-- Witness for C8 with a supplied non-empty customer name. -/
theorem claim_C8_witness :
    (customerFields ⟨"+15551234567", some "Bob", "andy"⟩).map Prod.fst =
      ["number", "name"] ∧
    getField (customerFields ⟨"+15551234567", some "Bob", "andy"⟩) "name" =
      some (.str "Bob") ∧
    (buildPayload ⟨"+15551234567", some "Bob", "andy"⟩ "aid-andy" "ph1").keys =
      ["assistantId", "phoneNumberId", "customer"] :=
  have t := claim_C8_wire_payload
    ⟨"+15551234567", some "Bob", "andy"⟩
    ⟨some "key1", some "aid-andy", some "aid-mam", some "ph1"⟩
    ⟨.timeout "t", .timeout "t"⟩ (by decide) (by decide)
  have u := t.2.2.2.2.2.2.1 "Bob" rfl rfl
  ⟨u.1, u.2, t.2.1⟩

/-- Helper: for every input, environment and remote behaviour, the result is
one of the eight dictionaries the code can build. -/
theorem callResult_shape_full (inp : CallInput) (env : Env) (o : Oracle) :
    callResult inp env o = validationResult inp ∨
    callResult inp env o = configResult inp env ∨
    (∃ msg, callResult inp env o = timeoutResult inp msg) ∨
    (∃ msg, callResult inp env o = networkResult inp msg) ∨
    (∃ st msg, callResult inp env o = httpStatusResult inp st msg) ∨
    (∃ kind msg, callResult inp env o = unexpectedResult inp kind msg) ∨
    (∃ st txt body, st ≠ 200 ∧ callResult inp env o =
      apiErrorResult inp ((assistantIdOpt inp env).getD "") (env.phone.getD "") st txt body) ∨
    (∃ cid ff, callResult inp env o =
      successResult inp ((assistantIdOpt inp env).getD "") (env.phone.getD "") cid ff) := by
  by_cases hv : pyLower inp.assistant = "andy" ∨ pyLower inp.assistant = "mam"
  · by_cases hm : missingVars inp env = []
    · rcases callResult_shape inp env o hv hm with
        ⟨msg, h⟩ | ⟨msg, h⟩ | ⟨st, msg, h⟩ | ⟨kind, msg, h⟩ |
        ⟨st, txt, body, hne, h⟩ | ⟨cid, ff, h⟩
      · exact Or.inr (Or.inr (Or.inl ⟨msg, h⟩))
      · exact Or.inr (Or.inr (Or.inr (Or.inl ⟨msg, h⟩)))
      · exact Or.inr (Or.inr (Or.inr (Or.inr (Or.inl ⟨st, msg, h⟩))))
      · exact Or.inr (Or.inr (Or.inr (Or.inr (Or.inr (Or.inl ⟨kind, msg, h⟩)))))
      · exact Or.inr (Or.inr (Or.inr (Or.inr (Or.inr (Or.inr (Or.inl ⟨st, txt, body, hne, h⟩))))))
      · exact Or.inr (Or.inr (Or.inr (Or.inr (Or.inr (Or.inr (Or.inr ⟨cid, ff, h⟩))))))
    · refine Or.inr (Or.inl ?_)
      have hne : ¬(missingVars inp env).isEmpty := by
        simpa [List.isEmpty_iff] using hm
      rcases hv with h | h <;> simp [callResult, make_vapi_call, h, hne]
  · refine Or.inl ?_
    have hmem : pyLower inp.assistant ∉ (["andy", "mam"] : List String) := by
      simpa using hv
    simp [callResult, make_vapi_call, hmem]

/-- Helper: the success dictionary carries no `error_type` key. -/
theorem successResult_no_error_type (inp : CallInput) (aid pid : String)
    (cid : Json) (ff : List (String × Json)) :
    (successResult inp aid pid cid ff).lookup "error_type" = none := by
  simp [successResult, Json.lookup, getField]

/-- C9: the tool never terminates with an uncaught fault: every invocation,
whatever the remote API does (including an exception of an unanticipated
class), returns a well-formed dictionary with a boolean `success` key; and an
unanticipated exception during the POST is captured as the unexpected-error
dictionary recording the concrete exception class. -/
theorem claim_C9_no_uncaught_failure (inp : CallInput) (env : Env) (o : Oracle) :
    (∃ b, (callResult inp env o).lookup "success" = some (.bool b)) ∧
    (∀ kind msg, pyLower inp.assistant ∈ (["andy", "mam"] : List String) →
      missingVars inp env = [] → o.post = .otherError kind msg →
      (callResult inp env o).lookup "error_type" = some (.str "unexpected_error") ∧
      (callResult inp env o).lookup "error_type_class" = some (.str kind) ∧
      (callResult inp env o).lookup "success" = some (.bool false)) := by
  constructor
  · rcases callResult_shape_full inp env o with
      h | h | ⟨msg, h⟩ | ⟨msg, h⟩ | ⟨st, msg, h⟩ | ⟨kind, msg, h⟩ |
      ⟨st, txt, body, hne, h⟩ | ⟨cid, ff, h⟩
    · exact ⟨false, by rw [h]; simp [validationResult, Json.lookup, getField]⟩
    · exact ⟨false, by rw [h]; simp [configResult, Json.lookup, getField]⟩
    · exact ⟨false, by rw [h]; simp [timeoutResult, Json.lookup, getField]⟩
    · exact ⟨false, by rw [h]; simp [networkResult, Json.lookup, getField]⟩
    · exact ⟨false, by rw [h]; simp [httpStatusResult, Json.lookup, getField]⟩
    · exact ⟨false, by rw [h]; simp [unexpectedResult, Json.lookup, getField]⟩
    · exact ⟨false, by rw [h]; simp [apiErrorResult, Json.lookup, getField]⟩
    · exact ⟨true, by rw [h]; simp [successResult, Json.lookup, getField]⟩
  · intro kind msg hval hcfg hpost
    have hv2 : pyLower inp.assistant = "andy" ∨ pyLower inp.assistant = "mam" := by
      simpa using hval
    have key : callResult inp env o = unexpectedResult inp kind msg := by
      rcases hv2 with h | h <;>
        simp [callResult, make_vapi_call, h, hcfg, hpost]
    rw [key]
    refine ⟨?_, ?_, ?_⟩ <;> simp [unexpectedResult, Json.lookup, getField]

/-- Witness for C9: an unanticipated `RuntimeError` during the POST is
returned as the unexpected-error dictionary naming that class. -/
theorem claim_C9_witness :
    (callResult ⟨"+15551234567", none, "andy"⟩
        ⟨some "key1", some "aid-andy", some "aid-mam", some "ph1"⟩
        ⟨.otherError "RuntimeError" "boom", .timeout "t"⟩).lookup "error_type" =
      some (.str "unexpected_error") ∧
    (callResult ⟨"+15551234567", none, "andy"⟩
        ⟨some "key1", some "aid-andy", some "aid-mam", some "ph1"⟩
        ⟨.otherError "RuntimeError" "boom", .timeout "t"⟩).lookup "error_type_class" =
      some (.str "RuntimeError") :=
  have t := (claim_C9_no_uncaught_failure
    ⟨"+15551234567", none, "andy"⟩
    ⟨some "key1", some "aid-andy", some "aid-mam", some "ph1"⟩
    ⟨.otherError "RuntimeError" "boom", .timeout "t"⟩).2
    "RuntimeError" "boom" (by decide) (by decide) rfl
  ⟨t.1, t.2.1⟩

/-- C10: every result carries a boolean `success` key; it is `true` exactly
when the result is the Success dictionary (equivalently, exactly when no
`error_type` key is present), and every `success = false` result carries a
machine-readable string `error_type` tag — no result is partially filled or
ambiguous between variants. -/
theorem claim_C10_success_flag_partitions_outcomes
    (inp : CallInput) (env : Env) (o : Oracle) :
    (∃ b, (callResult inp env o).lookup "success" = some (.bool b)) ∧
    ((callResult inp env o).lookup "success" = some (.bool true) ↔
      (callResult inp env o).lookup "error_type" = none) ∧
    ((callResult inp env o).lookup "success" = some (.bool true) ↔
      ∃ cid ff, callResult inp env o =
        successResult inp ((assistantIdOpt inp env).getD "") (env.phone.getD "") cid ff) ∧
    ((callResult inp env o).lookup "success" = some (.bool false) →
      ∃ s, (callResult inp env o).lookup "error_type" = some (.str s)) := by
  rcases callResult_shape_full inp env o with
    h | h | ⟨msg, h⟩ | ⟨msg, h⟩ | ⟨st, msg, h⟩ | ⟨kind, msg, h⟩ |
    ⟨st, txt, body, hne, h⟩ | ⟨cid, ff, h⟩
  case inl =>
    refine ⟨⟨false, ?_⟩, ?_, ?_, ?_⟩
    · rw [h]; simp [validationResult, Json.lookup, getField]
    · rw [h]; simp [validationResult, Json.lookup, getField]
    · rw [h]
      constructor
      · intro hs
        simp [validationResult, Json.lookup, getField] at hs
      · rintro ⟨cid, ff, hEq⟩
        have h2 := congrArg (fun j => Json.lookup j "error_type") hEq
        simp [successResult, validationResult, Json.lookup, getField] at h2
    · intro _
      exact ⟨"validation_error", by rw [h]; simp [validationResult, Json.lookup, getField]⟩
  case inr.inl =>
    refine ⟨⟨false, ?_⟩, ?_, ?_, ?_⟩
    · rw [h]; simp [configResult, Json.lookup, getField]
    · rw [h]; simp [configResult, Json.lookup, getField]
    · rw [h]
      constructor
      · intro hs
        simp [configResult, Json.lookup, getField] at hs
      · rintro ⟨cid, ff, hEq⟩
        have h3 := congrArg (fun j => Json.lookup j "error_type") hEq
        simp [successResult, configResult, Json.lookup, getField] at h3
    · intro _
      exact ⟨"configuration_error", by rw [h]; simp [configResult, Json.lookup, getField]⟩
  case inr.inr.inl =>
    refine ⟨⟨false, ?_⟩, ?_, ?_, ?_⟩
    · rw [h]; simp [timeoutResult, Json.lookup, getField]
    · rw [h]; simp [timeoutResult, Json.lookup, getField]
    · rw [h]
      constructor
      · intro hs
        simp [timeoutResult, Json.lookup, getField] at hs
      · rintro ⟨cid, ff, hEq⟩
        have h3 := congrArg (fun j => Json.lookup j "error_type") hEq
        simp [successResult, timeoutResult, Json.lookup, getField] at h3
    · intro _
      exact ⟨"timeout_error", by rw [h]; simp [timeoutResult, Json.lookup, getField]⟩
  case inr.inr.inr.inl =>
    refine ⟨⟨false, ?_⟩, ?_, ?_, ?_⟩
    · rw [h]; simp [networkResult, Json.lookup, getField]
    · rw [h]; simp [networkResult, Json.lookup, getField]
    · rw [h]
      constructor
      · intro hs
        simp [networkResult, Json.lookup, getField] at hs
      · rintro ⟨cid, ff, hEq⟩
        have h3 := congrArg (fun j => Json.lookup j "error_type") hEq
        simp [successResult, networkResult, Json.lookup, getField] at h3
    · intro _
      exact ⟨"network_error", by rw [h]; simp [networkResult, Json.lookup, getField]⟩
  case inr.inr.inr.inr.inl =>
    refine ⟨⟨false, ?_⟩, ?_, ?_, ?_⟩
    · rw [h]; simp [httpStatusResult, Json.lookup, getField]
    · rw [h]; simp [httpStatusResult, Json.lookup, getField]
    · rw [h]
      constructor
      · intro hs
        simp [httpStatusResult, Json.lookup, getField] at hs
      · rintro ⟨cid, ff, hEq⟩
        have h3 := congrArg (fun j => Json.lookup j "error_type") hEq
        simp [successResult, httpStatusResult, Json.lookup, getField] at h3
    · intro _
      exact ⟨"http_error", by rw [h]; simp [httpStatusResult, Json.lookup, getField]⟩
  case inr.inr.inr.inr.inr.inl =>
    refine ⟨⟨false, ?_⟩, ?_, ?_, ?_⟩
    · rw [h]; simp [unexpectedResult, Json.lookup, getField]
    · rw [h]; simp [unexpectedResult, Json.lookup, getField]
    · rw [h]
      constructor
      · intro hs
        simp [unexpectedResult, Json.lookup, getField] at hs
      · rintro ⟨cid, ff, hEq⟩
        have h3 := congrArg (fun j => Json.lookup j "error_type") hEq
        simp [successResult, unexpectedResult, Json.lookup, getField] at h3
    · intro _
      exact ⟨"unexpected_error", by rw [h]; simp [unexpectedResult, Json.lookup, getField]⟩
  case inr.inr.inr.inr.inr.inr.inl =>
    refine ⟨⟨false, ?_⟩, ?_, ?_, ?_⟩
    · rw [h]; simp [apiErrorResult, Json.lookup, getField]
    · rw [h]; simp [apiErrorResult, Json.lookup, getField]
    · rw [h]
      constructor
      · intro hs
        simp [apiErrorResult, Json.lookup, getField] at hs
      · rintro ⟨cid, ff, hEq⟩
        have h3 := congrArg (fun j => Json.lookup j "error_type") hEq
        simp [successResult, apiErrorResult, Json.lookup, getField] at h3
    · intro _
      exact ⟨errorTypeFor st, by rw [h]; simp [apiErrorResult, Json.lookup, getField]⟩
  case inr.inr.inr.inr.inr.inr.inr =>
    refine ⟨⟨true, ?_⟩, ?_, ?_, ?_⟩
    · rw [h]; simp [successResult, Json.lookup, getField]
    · rw [h]
      simp [successResult, Json.lookup, getField]
    · rw [h]
      constructor
      · intro _
        exact ⟨cid, ff, rfl⟩
      · intro _
        simp [successResult, Json.lookup, getField]
    · intro hs
      rw [h] at hs
      simp [successResult, Json.lookup, getField] at hs

/-- Witness for C10: on a concrete failing invocation the `success` key is a
boolean and the `error_type` tag is a string. -/
theorem claim_C10_witness :
    (∃ b, (callResult ⟨"+15551234567", none, "bob"⟩ ⟨none, none, none, none⟩
        ⟨.timeout "t", .timeout "t"⟩).lookup "success" = some (.bool b)) ∧
    (∃ s, (callResult ⟨"+15551234567", none, "bob"⟩ ⟨none, none, none, none⟩
        ⟨.timeout "t", .timeout "t"⟩).lookup "error_type" = some (.str s)) :=
  have t := claim_C10_success_flag_partitions_outcomes
    ⟨"+15551234567", none, "bob"⟩ ⟨none, none, none, none⟩
    ⟨.timeout "t", .timeout "t"⟩
  ⟨t.1, t.2.2.2 rfl⟩
